import Mathlib

/-!
Shallow embedding of the two AWS Lambda handlers of this repository:
`lambdas/users-register-post/lambda_function.py` (user registration with
document uploads and compensating deletes) and
`lambdas/request-files-get-upload-urls/lambda_fuction.py` (presigned
upload-URL issuing).  JSON values are modelled by `PyVal`; the S3 and MySQL
backends by explicit oracles; clock, uuid and environment variables by
explicit parameters.  A response is the structure handed to `json.dumps`.
-/

/-- A single-quote character as a string, used to build Python error texts. -/
def pyQuote : String := "\x27"

/-- JSON-ish Python values passed around by the handlers. -/
inductive PyVal where
  | none
  | bool (b : Bool)
  | int (n : Int)
  | str (s : String)
  | list (xs : List PyVal)
  | dict (d : List (String × PyVal))

/-- Python truthiness of a value. -/
def truthy : PyVal → Bool
  | .none => false
  | .bool b => b
  | .int n => n != 0
  | .str s => s != ""
  | .list xs => !xs.isEmpty
  | .dict d => !d.isEmpty

abbrev Jdict := List (String × PyVal)

/-- `d[k]` lookup.  Keys of the dictionaries modelled are unique (parsed
JSON objects), so the first match is the value. -/
def dget (d : Jdict) (k : String) : Option PyVal :=
  (d.find? (fun p => p.1 == k)).map (·.2)

/-- Python `d.get(k)`: a missing key yields `None`. -/
def pyGet (d : Jdict) (k : String) : PyVal :=
  (dget d k).getD .none

/-- Python type name of a value, used in interpreter error messages. -/
def pyTypeName : PyVal → String
  | .none => "NoneType"
  | .bool _ => "bool"
  | .int _ => "int"
  | .str _ => "str"
  | .list _ => "list"
  | .dict _ => "dict"

/-- `repr()` of a scalar.  Values nested more than one level deep never
occur in the events considered and are not modelled further. -/
def pyScalarRepr : PyVal → String
  | .str s => pyQuote ++ s ++ pyQuote
  | .int n => toString n
  | .bool b => if b then "True" else "False"
  | .none => "None"
  | .list _ => "[...]"
  | .dict _ => "\x7b...\x7d"

/-- Python `str()` as used by f-string interpolation in the handlers. -/
def pyStr : PyVal → String
  | .str s => s
  | .int n => toString n
  | .bool b => if b then "True" else "False"
  | .none => "None"
  | .list xs => "[" ++ String.intercalate ", " (xs.map pyScalarRepr) ++ "]"
  | .dict _ => "\x7b...\x7d"

/-- `isinstance(v, int)` — Python `bool` is a subclass of `int`. -/
def pyIsInt : PyVal → Bool
  | .int _ => true
  | .bool _ => true
  | _ => false

/-- Numeric value of an int-like Python value (`True` counts as 1). -/
def pyToInt : PyVal → Int
  | .int n => n
  | .bool b => if b then 1 else 0
  | _ => 0

/-- Python `v == s` for a string literal `s`: only an equal string compares
equal; any other type compares unequal. -/
def pyEqStr : PyVal → String → Bool
  | .str s, t => s == t
  | _, _ => false

def isList : PyVal → Bool
  | .list _ => true
  | _ => false

/-- Whether `pat` starts the character list. -/
def startsWithChars : List Char → List Char → Bool
  | [], _ => true
  | _ :: _, [] => false
  | p :: ps, c :: cs => p == c && startsWithChars ps cs

/-- Whether `pat` occurs inside the character list (Python `pat in s`). -/
def containsChars (pat : List Char) : List Char → Bool
  | [] => pat.isEmpty
  | c :: cs => startsWithChars pat (c :: cs) || containsChars pat cs

/-- Python substring test `pat in s`. -/
def strContainsSub (s pat : String) : Bool :=
  containsChars pat.data s.data

/-- Python `s.split(sep)` over character lists (keeps empty pieces). -/
def splitCharList (sep : Char) : List Char → List Char → List (List Char)
  | [], acc => [acc.reverse]
  | c :: cs, acc =>
    if c == sep then acc.reverse :: splitCharList sep cs []
    else splitCharList sep cs (c :: acc)

/-- Python exceptions reaching the handlers' `except` clauses. -/
inductive Exc where
  | attributeError (msg : String)
  | typeError (msg : String)
  | valueError (msg : String)
  | keyError (key : String)
  | backend (msg : String)
  deriving DecidableEq

/-- `str(e)`.  `str(KeyError(k))` is the repr-quoted key. -/
def excStr : Exc → String
  | .attributeError m => m
  | .typeError m => m
  | .valueError m => m
  | .keyError k => pyQuote ++ k ++ pyQuote
  | .backend m => m

/-- An API-Gateway response, before `json.dumps` of its body. -/
structure Response where
  statusCode : Nat
  headers : List (String × String)
  body : Jdict

/-- The `body` member of an inbound event after the string/`json.loads`
dispatch: absent or falsy raw body, a string body that fails to parse, or
the parsed value (JSON parsing itself is a library call, kept abstract). -/
inductive BodyField where
  | missing
  | badJson (err : String)
  | parsed (v : PyVal)

structure Event where
  httpMethod : Option String
  body : BodyField

def noAttrGetMsg (v : PyVal) : String :=
  pyQuote ++ pyTypeName v ++ pyQuote ++ " object has no attribute " ++ pyQuote ++ "get" ++ pyQuote

def notIterableMsg (v : PyVal) : String :=
  "argument of type " ++ pyQuote ++ pyTypeName v ++ pyQuote ++ " is not iterable"

namespace Reg

/-- Ambient values read inside the registration handler: `%d%m%Y` date,
ISO timestamp, generated uuid and environment variables. -/
structure Env where
  dateStr : String
  nowIso : String
  userId : String
  environment : String
  bucket : String

/-- Behaviour of the S3 and MySQL backends during one invocation.
`uploadErr`/`deleteErr` are keyed by the full object key.  `insertErr`
models a database-level error raised by the insert (for example a
duplicate-key error); the deterministic missing-parameter `KeyError` of the
statement formatting is modelled separately in `runTransaction`. -/
structure Oracle where
  connectOk : Bool
  decodeOk : String → Bool
  uploadErr : String → Option String
  insertErr : Option String
  commitErr : Option String
  deleteErr : String → Option String

/-- Characters kept by `clean_name`: A–Z (65–90), a–z (97–122) and space. -/
def keepChar (c : Char) : Bool :=
  (65 ≤ c.toNat && c.toNat ≤ 90) || (97 ≤ c.toNat && c.toNat ≤ 122) || c == ' '

/-- Python `str.split()` on the letter-and-space strings produced by the
filter above: splits on runs of spaces and discards empty tokens. -/
def splitWordsAux : List Char → List Char → List (List Char)
  | [], acc => if acc.isEmpty then [] else [acc.reverse]
  | c :: cs, acc =>
    if c == ' ' then
      if acc.isEmpty then splitWordsAux cs [] else acc.reverse :: splitWordsAux cs []
    else splitWordsAux cs (c :: acc)

/-- Python `str.capitalize()`: first character uppercased, the rest
lowercased (only ASCII letters survive the filter, so ASCII case maps are
faithful here). -/
def pyCapitalize : List Char → List Char
  | [] => []
  | c :: cs => c.toUpper :: cs.map Char.toLower

/-- Keep Latin letters and spaces, capitalize each word, join with
underscores (lines 219–234 of the source). -/
def clean_name (name : String) : String :=
  let kept := name.data.filter keepChar
  let words := (splitWordsAux kept []).map pyCapitalize
  String.intercalate "_" (words.map (fun w => String.mk w))

/-- Folder name `ddmmyyyy-ci-cleaned_name`; the current date is passed in
explicitly. -/
def generate_folder_name (dateStr ci full_name : String) : String :=
  dateStr ++ "-" ++ ci ++ "-" ++ clean_name full_name

/-- File key `ddmmyyyy-ci-filetype.extension`. -/
def generate_file_key (dateStr ci file_type ext : String) : String :=
  dateStr ++ "-" ++ ci ++ "-" ++ file_type ++ "." ++ ext

def extension_map : List (String × String) :=
  [("application/pdf", "pdf"), ("image/jpeg", "jpg"), ("image/jpg", "jpg"),
   ("image/png", "png"), ("image/gif", "gif"), ("application/msword", "doc"),
   ("application/vnd.openxmlformats-officedocument.wordprocessingml.document", "doc")]

def get_file_extension (content_type : String) : String :=
  ((extension_map.find? (fun p => p.1 == content_type)).map (·.2)).getD "pdf"

/-- Decimal strings accepted by Python `float()` as exercised by the
payloads modelled here: optional surrounding spaces, an optional sign,
digits with at most one dot.  (Exponent and infinity forms never occur in
the events considered.) -/
def isFloatStr (s : String) : Bool :=
  let t := s.data.dropWhile (· == ' ')
  let t := (t.reverse.dropWhile (· == ' ')).reverse
  let t := match t with
    | c :: r => if c == '+' || c == '-' then r else c :: r
    | [] => []
  let intPart := t.takeWhile (· != '.')
  let rest := t.dropWhile (· != '.')
  match rest with
  | [] => !intPart.isEmpty && intPart.all Char.isDigit
  | _ :: frac =>
    !(intPart.isEmpty && frac.isEmpty) && intPart.all Char.isDigit && frac.all Char.isDigit

/-- `float(v)`: succeeds on ints and numeric strings, raises otherwise.
The numeric value itself is opaque to the rest of the handler, so the
original value is carried through on success. -/
def pyFloatCheck : PyVal → Except Exc PyVal
  | .int n => .ok (.int n)
  | .bool b => .ok (.int (if b then 1 else 0))
  | .str s =>
    if isFloatStr s then .ok (.str s)
    else .error (.valueError ("could not convert string to float: " ++ pyQuote ++ s ++ pyQuote))
  | v =>
    .error (.typeError ("float() argument must be a string or a real number, not " ++
      pyQuote ++ pyTypeName v ++ pyQuote))

/-- `prepare_user_data` (lines 273–302): the mapping later handed to the
parameterized INSERT.  Note it contains no `*_path` keys. -/
def prepare_user_data (env : Env) (body : Jdict) (userId : String) : Except Exc Jdict :=
  let mi := pyGet body "monthly_income"
  match (if truthy mi then pyFloatCheck mi else .ok PyVal.none) with
  | .error e => .error e
  | .ok miv => .ok
    [("id", .str userId), ("email", pyGet body "email"),
     ("full_name", pyGet body "full_name"), ("birth_date", pyGet body "birth_date"),
     ("ci", pyGet body "ci"), ("phone1", pyGet body "phone1"),
     ("phone2", pyGet body "phone2"), ("address", pyGet body "address"),
     ("instagram", pyGet body "instagram"), ("facebook", pyGet body "facebook"),
     ("tiktok", pyGet body "tiktok"), ("ref1_name", pyGet body "ref1_name"),
     ("ref1_relation", pyGet body "ref1_relation"), ("ref2_name", pyGet body "ref2_name"),
     ("ref2_relation", pyGet body "ref2_relation"), ("monthly_income", miv),
     ("activity_type", pyGet body "activity_type"), ("position", pyGet body "position"),
     ("created_at", .str env.nowIso), ("updated_at", .str env.nowIso)]

/-- Side effects of one invocation. -/
inductive Action where
  | upload (key : String)
  | rollback
  | deleteAttempt (key : String)
  deriving DecidableEq

/-- Objects of this invocation still in storage when the call returns,
whether the row committed, and the actions performed in order. -/
structure RegState where
  s3 : List String
  committed : Bool
  actions : List Action
  deriving DecidableEq

/-- Accumulator of the upload loop: the `file_paths` dict, the
`uploaded_files` rollback set, and the upload actions. -/
structure UpState where
  file_paths : Jdict
  uploaded : List String
  actions : List Action

def file_mapping : List (String × String) :=
  [("id_file", "cedula"), ("rif_file", "rif"), ("ref1_id", "ref1_cedula"),
   ("ref2_id", "ref2_cedula"), ("work_cert", "constancia_laboral")]

/-- One iteration of the upload loop (lines 112–137): a present non-dict or
data-less value is silently skipped; inside the `try`, decode, key
derivation and upload, where any failure is logged and skipped. -/
def processOne (env : Env) (orc : Oracle) (body : Jdict) (folder : String)
    (st : UpState) (ff ft : String) : UpState :=
  let v := pyGet body ff
  if truthy v then
    match v with
    | .dict fd =>
      if truthy (pyGet fd "data") then
        match pyGet fd "data" with
        | .str data =>
          if orc.decodeOk data then
            match (dget fd "content_type").getD (.str "application/pdf") with
            | .str ct =>
              let ext := get_file_extension ct
              let fileKey := generate_file_key env.dateStr (pyStr (pyGet body "ci")) ft ext
              let fullKey := folder ++ "/" ++ fileKey
              match orc.uploadErr fullKey with
              | Option.none =>
                ⟨st.file_paths ++ [(ft ++ "_path", .str ("s3://" ++ env.bucket ++ "/" ++ fullKey))],
                 st.uploaded ++ [fullKey], st.actions ++ [.upload fullKey]⟩
              | Option.some _ => st
            | _ => st
          else st
        | _ => st
      else st
    | _ => st
  else st

def processFiles (env : Env) (orc : Oracle) (body : Jdict) (folder : String) : UpState :=
  file_mapping.foldl (fun st p => processOne env orc body folder st p.1 p.2) ⟨[], [], []⟩

/-- The named placeholders of the INSERT statement, in order of appearance.
`pymysql` renders the statement with Python %-formatting over the
`user_data` mapping, so the first placeholder whose key is absent raises a
`KeyError` before anything reaches the database. -/
def sqlParamKeys : List String :=
  ["id", "email", "full_name", "birth_date", "ci", "phone1", "phone2", "address",
   "instagram", "facebook", "tiktok", "ref1_name", "ref1_relation", "ref2_name",
   "ref2_relation", "monthly_income", "activity_type", "position", "cedula_path",
   "rif_path", "ref1_cedula_path", "ref2_cedula_path", "constancia_laboral_path",
   "created_at", "updated_at"]

inductive RegOut where
  | options
  | noBody
  | badJson (err : String)
  | missingFields (names : List String)
  | regFailed (st : RegState)
  | success (userData : Jdict) (folder : String) (nUploaded : Nat) (st : RegState)
  | raised (e : Exc)

/-- State produced by the failure path of lines 171–197: rollback, then one
delete attempt for every uploaded key (each independent of the others'
outcome); an object survives only if its delete raised. -/
def failState (orc : Oracle) (up : UpState) : RegState :=
  ⟨up.uploaded.filter (fun k => (orc.deleteErr k).isSome), false,
   up.actions ++ Action.rollback :: up.uploaded.map Action.deleteAttempt⟩

/-- Lines 98–201: connection, upload loop, insert, commit; on any exception
rollback, best-effort delete of every uploaded key, and the generic
registration-failed outcome.  A failed connection is caught with
`connection = None` and an empty rollback set, so nothing is rolled back or
deleted there. -/
def runTransaction (env : Env) (orc : Oracle) (body userData : Jdict)
    (folder : String) : RegOut :=
  if !orc.connectOk then
    .regFailed ⟨[], false, []⟩
  else
    let up := processFiles env orc body folder
    let ud := userData ++ up.file_paths
    let missingParams := sqlParamKeys.filter (fun k => (dget ud k).isNone)
    if !missingParams.isEmpty || orc.insertErr.isSome || orc.commitErr.isSome then
      .regFailed (failState orc up)
    else
      .success ud folder up.uploaded.length ⟨up.uploaded, true, up.actions⟩

def required_fields : List String := ["email", "full_name", "ci", "phone1"]

/-- `[field for field in required_fields if not body.get(field)]`. -/
def missingRequired (body : Jdict) : List String :=
  required_fields.filter (fun f => !truthy (pyGet body f))

/-- Control flow of `lambda_handler` (lines 25–217) up to response
rendering.  A non-dict parsed body raises `AttributeError` at the required
fields check; a non-string `full_name` raises `TypeError` inside
`clean_name`; both escape to the top-level catch. -/
def regOutcome (env : Env) (orc : Oracle) (ev : Event) : RegOut :=
  if ev.httpMethod == some "OPTIONS" then .options
  else
    match ev.body with
    | .missing => .noBody
    | .badJson e => .badJson e
    | .parsed (.dict body) =>
      if !(missingRequired body).isEmpty then .missingFields (missingRequired body)
      else
        match prepare_user_data env body env.userId with
        | .error e => .raised e
        | .ok userData =>
          match pyGet body "full_name" with
          | .str fn =>
            runTransaction env orc body userData
              (generate_folder_name env.dateStr (pyStr (pyGet body "ci")) fn)
          | v => .raised (.typeError (notIterableMsg v))
    | .parsed v => .raised (.attributeError (noAttrGetMsg v))

def cors_headers : List (String × String) :=
  [("Access-Control-Allow-Origin", "*"),
   ("Access-Control-Allow-Headers", "Content-Type,X-Amz-Date,Authorization,X-Api-Key,x-requested-with"),
   ("Access-Control-Allow-Methods", "GET,POST,PUT,DELETE,OPTIONS"),
   ("Access-Control-Allow-Credentials", "true")]

/-- The reduced header set of the top-level catch (lines 208–211). -/
def catch_headers : List (String × String) :=
  [("Access-Control-Allow-Origin", "*"),
   ("Access-Control-Allow-Headers", "Content-Type"),
   ("Access-Control-Allow-Methods", "GET,POST,PUT,DELETE,OPTIONS")]

def optionsResponse : Response :=
  ⟨200, cors_headers, [("message", .str "CORS preflight successful")]⟩

def noBodyResponse : Response :=
  ⟨400, cors_headers, [("error", .str "Request body is required")]⟩

def badJsonResponse (e : String) : Response :=
  ⟨400, cors_headers, [("error", .str ("Invalid JSON: " ++ e))]⟩

def missingFieldsResponse (names : List String) : Response :=
  ⟨400, cors_headers,
   [("error", .str ("Missing required fields: " ++ String.intercalate ", " names))]⟩

def regFailedResponse : Response :=
  ⟨500, cors_headers,
   [("error", .str "Registration failed"),
    ("message", .str "User registration could not be completed")]⟩

def successResponse (env : Env) (userData : Jdict) (folder : String) (n : Nat) : Response :=
  ⟨201, cors_headers,
   [("success", .bool true), ("user_id", .str env.userId),
    ("message", .str "User registered successfully"),
    ("data", .dict [("email", pyGet userData "email"),
                    ("full_name", pyGet userData "full_name"),
                    ("ci", pyGet userData "ci"), ("phone1", pyGet userData "phone1"),
                    ("folder", .str folder), ("files_uploaded", .int n)]),
    ("environment", .str env.environment), ("timestamp", .str env.nowIso)]⟩

def catchAllResponse (e : Exc) : Response :=
  ⟨500, catch_headers,
   [("error", .str "Internal server error"), ("message", .str (excStr e))]⟩

def emptyState : RegState := ⟨[], false, []⟩

def renderReg (env : Env) : RegOut → Response × RegState
  | .options => (optionsResponse, emptyState)
  | .noBody => (noBodyResponse, emptyState)
  | .badJson e => (badJsonResponse e, emptyState)
  | .missingFields ns => (missingFieldsResponse ns, emptyState)
  | .regFailed st => (regFailedResponse, st)
  | .success ud folder n st => (successResponse env ud folder n, st)
  | .raised e => (catchAllResponse e, emptyState)

/-- The registration entry point: the response and the side-effect state of
one invocation. -/
def lambda_handler (env : Env) (orc : Oracle) (ev : Event) : Response × RegState :=
  renderReg env (regOutcome env orc ev)

end Reg

namespace Issuer

/-- Ambient values read inside the issuer handler: environment tag, the
`S3_BUCKET_NAME` variable, the ISO timestamp, the `%Y%m%d_%H%M%S`
timestamp used in keys, and the uuid drawn at loop iteration `i`. -/
structure Env where
  environment : String
  bucket : Option String
  nowIso : String
  timestampStr : String
  uuids : Nat → String

/-- The storage backend: `generate_presigned_url` per object key, either a
URL or the message of the `ClientError` it raises. -/
structure Oracle where
  presign : String → Except String String

def allowed_file_types : List (String × String) :=
  [("pdf", "application/pdf"), ("jpg", "image/jpeg"), ("jpeg", "image/jpeg"),
   ("png", "image/png"), ("doc", "application/msword"),
   ("docx", "application/vnd.openxmlformats-officedocument.wordprocessingml.document")]

def maxFileSize : Int := 10485760

structure Violation where
  file_index : Nat
  field : String
  message : String
  deriving DecidableEq

/-- A file entry that passed every check of the loop body. -/
structure ValidFile where
  field_name : PyVal
  file_name : String
  file_size : PyVal
  content_type : PyVal

structure Grant where
  field_name : PyVal
  file_name : String
  s3_key : String
  upload_url : String
  content_type : PyVal
  max_file_size : PyVal

/-- `file_name.split(".")[-1].lower()` (ASCII lowering; the file names
modelled use ASCII extensions). -/
def lastExtension (fn : String) : String :=
  String.mk (((splitCharList '.' fn.data []).getLastD []).map Char.toLower)

def requiredFileFields : List String :=
  ["field_name", "file_name", "file_size", "content_type"]

def fieldRequiredMsg (f : String) : String :=
  "Field " ++ pyQuote ++ f ++ pyQuote ++ " is required"

def allowedTypesRepr : String :=
  "[" ++ String.intercalate ", " (allowed_file_types.map (fun p => pyQuote ++ p.1 ++ pyQuote)) ++ "]"

def extNotAllowedMsg (ext : String) : String :=
  "File type " ++ pyQuote ++ ext ++ pyQuote ++ " not allowed. Allowed types: " ++ allowedTypesRepr

def sizeExceededMsg : String :=
  "File size exceeds maximum allowed size of 10485760 bytes"

def ctMsg (expected ext : String) : String :=
  "Invalid content type. Expected " ++ pyQuote ++ expected ++ pyQuote ++ " for ." ++ ext ++ " files"

/-- Per-file processing of `validate_file_info` plus the inline extension,
size and content-type checks (lines 102–136): the single violation recorded
for an invalid file, a validated file, or the exception the interpreter
raises for a malformed entry (a non-dict entry at `field not in file_info`
or at the subscripts; a non-string `file_name` at `in` or `split`). -/
def checkFile (f : PyVal) (i : Nat) : Except Exc (Sum Violation ValidFile) :=
  match f with
  | .dict fd =>
    match requiredFileFields.find? (fun fl => (dget fd fl).isNone) with
    | some fl => .ok (.inl ⟨i, fl, fieldRequiredMsg fl⟩)
    | Option.none =>
      let sz := pyGet fd "file_size"
      if !pyIsInt sz || pyToInt sz ≤ 0 then
        .ok (.inl ⟨i, "file_size", "File size must be a positive integer"⟩)
      else
        match pyGet fd "file_name" with
        | .str fn =>
          if !strContainsSub fn "." then
            .ok (.inl ⟨i, "file_name", "File name must include file extension"⟩)
          else
            let ext := lastExtension fn
            match allowed_file_types.find? (fun p => p.1 == ext) with
            | Option.none => .ok (.inl ⟨i, "file_name", extNotAllowedMsg ext⟩)
            | some pe =>
              if pyToInt sz > maxFileSize then
                .ok (.inl ⟨i, "file_size", sizeExceededMsg⟩)
              else if !pyEqStr (pyGet fd "content_type") pe.2 then
                .ok (.inl ⟨i, "content_type", ctMsg pe.2 ext⟩)
              else .ok (.inr ⟨pyGet fd "field_name", fn, sz, pyGet fd "content_type"⟩)
        | .list xs =>
          if xs.any (fun x => pyEqStr x ".") then
            .error (.attributeError (pyQuote ++ "list" ++ pyQuote ++
              " object has no attribute " ++ pyQuote ++ "split" ++ pyQuote))
          else .ok (.inl ⟨i, "file_name", "File name must include file extension"⟩)
        | .dict d2 =>
          if (dget d2 ".").isSome then
            .error (.attributeError (pyQuote ++ "dict" ++ pyQuote ++
              " object has no attribute " ++ pyQuote ++ "split" ++ pyQuote))
          else .ok (.inl ⟨i, "file_name", "File name must include file extension"⟩)
        | v => .error (.typeError (notIterableMsg v))
  | .str s =>
    match requiredFileFields.find? (fun fl => !strContainsSub s fl) with
    | some fl => .ok (.inl ⟨i, fl, fieldRequiredMsg fl⟩)
    | Option.none => .error (.typeError "string indices must be integers")
  | .list xs =>
    match requiredFileFields.find? (fun fl => !xs.any (fun x => pyEqStr x fl)) with
    | some fl => .ok (.inl ⟨i, fl, fieldRequiredMsg fl⟩)
    | Option.none => .error (.typeError "list indices must be integers or slices, not str")
  | v => .error (.typeError (notIterableMsg v))

inductive IssuerOut where
  | noBucket
  | missingBody
  | invalidJson
  | invalidFiles
  | tooMany
  | validationErr (vs : List Violation)
  | presignFail (e : String)
  | success (gs : List Grant)
  | raised (e : Exc)

/-- `uploads/{field_name}/{timestamp}_{uuid}_{file_name}`. -/
def mkKey (env : Env) (vf : ValidFile) (i : Nat) : String :=
  "uploads/" ++ pyStr vf.field_name ++ "/" ++ env.timestampStr ++ "_" ++
    env.uuids i ++ "_" ++ vf.file_name

def mkGrant (vf : ValidFile) (key url : String) : Grant :=
  ⟨vf.field_name, vf.file_name, key, url, vf.content_type, vf.file_size⟩

/-- The per-file loop of lines 102–173 followed by lines 175–194: violations
and grants accumulate; the first `ClientError` from presigning aborts the
whole batch; at the end any violation yields the validation-error outcome,
otherwise success. -/
def issuerLoop (env : Env) (orc : Oracle) :
    List PyVal → Nat → List Grant → List Violation → IssuerOut
  | [], _, gs, vs => if vs.isEmpty then .success gs else .validationErr vs
  | f :: rest, i, gs, vs =>
    match checkFile f i with
    | .error e => .raised e
    | .ok (.inl v) => issuerLoop env orc rest (i + 1) gs (vs ++ [v])
    | .ok (.inr vf) =>
      match orc.presign (mkKey env vf i) with
      | .error e => .presignFail e
      | .ok url => issuerLoop env orc rest (i + 1) (gs ++ [mkGrant vf (mkKey env vf i) url]) vs

/-- Control flow of the issuer `lambda_handler` (lines 24–203) up to
response rendering.  A parsed non-dict body raises `AttributeError` at
`body.get`, caught by the top-level handler. -/
def issuerOutcome (env : Env) (orc : Oracle) (ev : Event) : IssuerOut :=
  match env.bucket with
  | Option.none => .noBucket
  | some _ =>
    match ev.body with
    | .missing => .missingBody
    | .badJson _ => .invalidJson
    | .parsed (.dict body) =>
      let files := (dget body "files").getD (.list [])
      if !truthy files || !isList files then .invalidFiles
      else
        match files with
        | .list fs => if fs.length > 5 then .tooMany else issuerLoop env orc fs 0 [] []
        | _ => .invalidFiles
    | .parsed v => .raised (.attributeError (noAttrGetMsg v))

def response_headers : List (String × String) :=
  [("Content-Type", "application/json"), ("Access-Control-Allow-Origin", "*"),
   ("Access-Control-Allow-Methods", "POST, OPTIONS"),
   ("Access-Control-Allow-Headers", "Content-Type, Authorization")]

/-- `create_error_response` (lines 259–281); a falsy `details` value is
omitted from the body. -/
def create_error_response (env : Env) (message error_code : String) (status : Nat)
    (environment : String) (details : Option PyVal) : Response :=
  ⟨status, response_headers,
   [("success", .bool false), ("message", .str message), ("error_code", .str error_code),
    ("environment", .str environment), ("timestamp", .str env.nowIso)] ++
   (match details with
    | some d => if truthy d then [("details", d)] else []
    | Option.none => [])⟩

/-- `create_success_response` (lines 235–257); the handler never passes a
`user_id`, so that branch is omitted. -/
def create_success_response (env : Env) (message : String) (data : PyVal)
    (environment : String) : Response :=
  ⟨200, response_headers,
   [("success", .bool true), ("message", .str message), ("data", data),
    ("environment", .str environment), ("timestamp", .str env.nowIso)]⟩

def violationPy (v : Violation) : PyVal :=
  .dict [("file_index", .int v.file_index), ("field", .str v.field),
         ("message", .str v.message)]

def grantPy (g : Grant) : PyVal :=
  .dict [("field_name", g.field_name), ("file_name", .str g.file_name),
         ("s3_key", .str g.s3_key), ("upload_url", .str g.upload_url),
         ("expires_in", .int 3600), ("content_type", g.content_type),
         ("max_file_size", g.max_file_size)]

def renderIssuer (env : Env) : IssuerOut → Response
  | .noBucket =>
    create_error_response env "S3 bucket not configured" "BUCKET_NOT_CONFIGURED" 500
      env.environment Option.none
  | .missingBody =>
    create_error_response env "Request body is required" "MISSING_BODY" 400
      env.environment Option.none
  | .invalidJson =>
    create_error_response env "Invalid JSON in request body" "INVALID_JSON" 400
      env.environment Option.none
  | .invalidFiles =>
    create_error_response env "Files array is required and must contain at least one file"
      "INVALID_FILES_ARRAY" 400 env.environment Option.none
  | .tooMany =>
    create_error_response env "Maximum 5 files allowed per request" "TOO_MANY_FILES" 400
      env.environment Option.none
  | .validationErr vs =>
    create_error_response env "Validation errors found" "VALIDATION_ERROR" 400
      env.environment (some (.dict [("validation_errors", .list (vs.map violationPy))]))
  | .presignFail e =>
    create_error_response env "Failed to generate presigned URL" "S3_PRESIGN_ERROR" 500
      env.environment (some (.dict [("aws_error", .str e)]))
  | .success gs =>
    create_success_response env "Upload URLs generated successfully"
      (.dict [("upload_urls", .list (gs.map grantPy)),
              ("bucket_name", .str (env.bucket.getD "")),
              ("total_files", .int gs.length)])
      env.environment
  | .raised e =>
    create_error_response env "Internal server error" "INTERNAL_ERROR" 500
      env.environment (some (.dict [("error", .str (excStr e))]))

/-- The issuer entry point. -/
def lambda_handler (env : Env) (orc : Oracle) (ev : Event) : Response :=
  renderIssuer env (issuerOutcome env orc ev)

/-- Index-tagged view of the files list, mirroring `enumerate(files)`. -/
def withIdx (i : Nat) : List PyVal → List (Nat × PyVal)
  | [] => []
  | f :: rest => (i, f) :: withIdx (i + 1) rest

/-- The violations the loop accumulates from index `i` on. -/
def viosFrom : List PyVal → Nat → List Violation
  | [], _ => []
  | f :: rest, i =>
    match checkFile f i with
    | .ok (.inl v) => v :: viosFrom rest (i + 1)
    | _ => viosFrom rest (i + 1)

def batchViolations (fs : List PyVal) : List Violation := viosFrom fs 0

/-- The grants the loop accumulates from index `i` on (skipping entries
whose presign fails; used under a no-failure hypothesis). -/
def grantsFrom (env : Env) (orc : Oracle) : List PyVal → Nat → List Grant
  | [], _ => []
  | f :: rest, i =>
    match checkFile f i with
    | .ok (.inr vf) =>
      match orc.presign (mkKey env vf i) with
      | .ok url => mkGrant vf (mkKey env vf i) url :: grantsFrom env orc rest (i + 1)
      | .error _ => grantsFrom env orc rest (i + 1)
    | _ => grantsFrom env orc rest (i + 1)

end Issuer

/-! Concrete fixtures used by the witnesses and counterexamples. -/

def docVal : PyVal := .dict [("data", .str "QUJD"), ("content_type", .str "application/pdf")]

def docsPart : Jdict :=
  [("id_file", docVal), ("rif_file", docVal), ("ref1_id", docVal),
   ("ref2_id", docVal), ("work_cert", docVal)]

def baseBody : Jdict :=
  [("email", .str "a@b.com"), ("full_name", .str "Ana Perez"),
   ("ci", .str "V-12345678"), ("phone1", .str "04141234567")]

def fullBody : Jdict := baseBody ++ docsPart

def regEnv0 : Reg.Env := ⟨"01012025", "2025-01-01T00:00:00", "uid-1", "dev", "bucket"⟩

def allOkOracle : Reg.Oracle :=
  ⟨true, fun _ => true, fun _ => none, none, none, fun _ => none⟩

def dupOracle : Reg.Oracle :=
  ⟨true, fun _ => true, fun _ => none,
   some "Duplicate entry a@b.com for key users.email", none, fun _ => none⟩

def mkPostEvent (b : Jdict) : Event := ⟨some "POST", .parsed (.dict b)⟩

def fullEvent : Event := mkPostEvent fullBody

def regFolder0 : String := Reg.generate_folder_name "01012025" "V-12345678" "Ana Perez"

def fullKeys : List String :=
  ["01012025-V-12345678-Ana_Perez/01012025-V-12345678-cedula.pdf",
   "01012025-V-12345678-Ana_Perez/01012025-V-12345678-rif.pdf",
   "01012025-V-12345678-Ana_Perez/01012025-V-12345678-ref1_cedula.pdf",
   "01012025-V-12345678-Ana_Perez/01012025-V-12345678-ref2_cedula.pdf",
   "01012025-V-12345678-Ana_Perez/01012025-V-12345678-constancia_laboral.pdf"]

/-- Oracle for which storing the `cedula` document fails and everything
else succeeds. -/
def c3Oracle : Reg.Oracle :=
  ⟨true, fun _ => true,
   fun k => if k == "01012025-V-12345678-Ana_Perez/01012025-V-12345678-cedula.pdf"
            then some "S3 put failed" else none,
   none, none, fun _ => none⟩

def c3Keys : List String :=
  ["01012025-V-12345678-Ana_Perez/01012025-V-12345678-rif.pdf",
   "01012025-V-12345678-Ana_Perez/01012025-V-12345678-ref1_cedula.pdf",
   "01012025-V-12345678-Ana_Perez/01012025-V-12345678-ref2_cedula.pdf",
   "01012025-V-12345678-Ana_Perez/01012025-V-12345678-constancia_laboral.pdf"]

def c10Body : Jdict := baseBody ++ [("id_file", .str "not-a-dict")]

def noBodyEvent : Event := ⟨some "POST", .missing⟩

def noAtBody : Jdict :=
  [("email", .str "invalid-email"), ("full_name", .str "Ana Perez"),
   ("ci", .str "V-12345678"), ("phone1", .str "04141234567")] ++ docsPart

def noAtEvent : Event := mkPostEvent noAtBody

def issEnv0 : Issuer.Env :=
  ⟨"dev", some "upload-bucket", "2025-01-01T00:00:00", "20250101_000000", fun _ => "u0"⟩

def issOkOracle : Issuer.Oracle := ⟨fun k => .ok ("https://s3/" ++ k)⟩

def issFailOracle : Issuer.Oracle := ⟨fun _ => .error "boom"⟩

def intFileEvent : Event := ⟨some "POST", .parsed (.dict [("files", .list [.int 5])])⟩

def c7Exc : Exc := .typeError (notIterableMsg (.int 5))

def validPdfFile : PyVal :=
  .dict [("field_name", .str "doc2"), ("file_name", .str "b.pdf"),
         ("file_size", .int 100), ("content_type", .str "application/pdf")]

def invalidTxtFile : PyVal :=
  .dict [("field_name", .str "doc1"), ("file_name", .str "a.txt"),
         ("file_size", .int 100), ("content_type", .str "text/plain")]

def c5Files : List PyVal := [validPdfFile, invalidTxtFile]

def c5Event : Event := ⟨some "POST", .parsed (.dict [("files", .list c5Files)])⟩

def c6Event : Event := ⟨some "POST", .parsed (.dict [("files", .list [validPdfFile])])⟩

/-- The body parsed to a JSON array, so `body.get` raises. -/
def listBodyEvent : Event := ⟨some "POST", .parsed (.list [])⟩

def c7RegExc : Exc := .attributeError (noAttrGetMsg (.list []))

/-- The user-data mapping prepared for the all-documents payload. -/
def udFull : Jdict :=
  match Reg.prepare_user_data regEnv0 fullBody "uid-1" with
  | .ok d => d
  | .error _ => []

/-- C2 (counterexample): with an event whose payload collides on email, the
insert raises a duplicate-key error, yet the handler returns the generic
500 registration-failed response — not a 409 conflict outcome; no
uniqueness pre-check exists anywhere in `regOutcome`. -/
theorem c2_counterexample :
    Reg.lambda_handler regEnv0 dupOracle fullEvent =
      (Reg.regFailedResponse,
       ⟨[], false, fullKeys.map Reg.Action.upload ++
         Reg.Action.rollback :: fullKeys.map Reg.Action.deleteAttempt⟩) ∧
    (Reg.lambda_handler regEnv0 dupOracle fullEvent).1.statusCode = 500 ∧
    (Reg.lambda_handler regEnv0 dupOracle fullEvent).1.statusCode ≠ 409 :=
  ⟨rfl, rfl, by decide⟩

/-- C3 (code bug): when storing the `cedula` document fails, the handler
does log and continue through the remaining four uploads, but the INSERT
then references the absent `cedula_path` parameter, raising `KeyError`:
the whole registration fails with the 500 registration-failed response, the
four uploaded objects are deleted again, and no row persists — instead of
proceeding with a null column as the claim states. -/
theorem c3_partial_upload_keyerror_bug :
    (Reg.processFiles regEnv0 c3Oracle fullBody regFolder0).uploaded = c3Keys ∧
    Reg.lambda_handler regEnv0 c3Oracle fullEvent =
      (Reg.regFailedResponse,
       ⟨[], false, c3Keys.map Reg.Action.upload ++
         Reg.Action.rollback :: c3Keys.map Reg.Action.deleteAttempt⟩) ∧
    (Reg.lambda_handler regEnv0 c3Oracle fullEvent).2.committed = false :=
  ⟨rfl, rfl, rfl⟩

/-- C4 (counterexample): `clean_name` strips accented letters entirely, so
the documented example value `Jose_Martinez` is wrong: the code produces
`Jos_Martnez`. -/
theorem c4_counterexample :
    Reg.clean_name "José Martínez!" = "Jos_Martnez" ∧
    Reg.clean_name "José Martínez!" ≠ "Jose_Martinez" :=
  ⟨rfl, by decide⟩

/-- C7 (counterexample): a `files` array holding the number 5 makes
`validate_file_info` raise `TypeError`; the top-level catch converts it to
a 500 response whose body carries the raw exception text in
`details.error`. -/
theorem c7_counterexample :
    Issuer.issuerOutcome issEnv0 issOkOracle intFileEvent = .raised c7Exc ∧
    (Issuer.lambda_handler issEnv0 issOkOracle intFileEvent).statusCode = 500 ∧
    dget (Issuer.lambda_handler issEnv0 issOkOracle intFileEvent).body "details" =
      some (.dict [("error", .str (excStr c7Exc))]) :=
  ⟨rfl, rfl, rfl⟩

/-- C8 (counterexample): an email without an `@` passes validation — the
handler performs no email-format check — and the registration succeeds with
201 rather than being rejected with a validation error. -/
theorem c8_counterexample :
    strContainsSub "invalid-email" "@" = false ∧
    (Reg.lambda_handler regEnv0 allOkOracle noAtEvent).1.statusCode = 201 ∧
    (Reg.lambda_handler regEnv0 allOkOracle noAtEvent).1.statusCode ≠ 400 :=
  ⟨rfl, rfl, by decide⟩

/-- C9 (counterexample): the registration handler's missing-body response
carries no timestamp in its body, and the top-level catch uses a different
header set than the other paths, refuting the uniform-envelope claim. -/
theorem c9_counterexample :
    (Reg.lambda_handler regEnv0 allOkOracle noBodyEvent).1 = Reg.noBodyResponse ∧
    dget (Reg.lambda_handler regEnv0 allOkOracle noBodyEvent).1.body "timestamp" = none ∧
    Reg.catch_headers ≠ Reg.cors_headers :=
  ⟨rfl, rfl, by decide⟩

/-- C10 (code bug): a recognized document field holding a plain string is
silently skipped (no upload, no validation error), but the INSERT then
references the absent `cedula_path` parameter and raises `KeyError`: the
registration fails with the 500 registration-failed response and no row
persists, instead of proceeding with a null storage-path column. -/
theorem c10_nondict_document_bug :
    (Reg.processFiles regEnv0 allOkOracle c10Body regFolder0).uploaded = [] ∧
    Reg.lambda_handler regEnv0 allOkOracle (mkPostEvent c10Body) =
      (Reg.regFailedResponse, ⟨[], false, [Reg.Action.rollback]⟩) ∧
    (Reg.lambda_handler regEnv0 allOkOracle (mkPostEvent c10Body)).2.committed = false :=
  ⟨rfl, rfl, rfl⟩

/-! Helper lemmas. -/

/-- Under a non-OPTIONS event with a well-formed payload, the handler's
outcome is the transaction's outcome. -/
theorem regOutcome_run (env : Reg.Env) (orc : Reg.Oracle) (ev : Event)
    (body userData : Jdict) (fn : String)
    (hopt : ev.httpMethod ≠ some "OPTIONS")
    (hbody : ev.body = .parsed (.dict body))
    (hmiss : Reg.missingRequired body = [])
    (hprep : Reg.prepare_user_data env body env.userId = .ok userData)
    (hfn : pyGet body "full_name" = .str fn) :
    Reg.regOutcome env orc ev =
      Reg.runTransaction env orc body userData
        (Reg.generate_folder_name env.dateStr (pyStr (pyGet body "ci")) fn) := by
  have h1 : (ev.httpMethod == some "OPTIONS") = false := beq_eq_false_iff_ne.mpr hopt
  unfold Reg.regOutcome
  rw [hbody]
  simp only [h1, Bool.false_eq_true, if_false, hmiss, List.isEmpty_nil, Bool.not_true,
    hprep, hfn]

/-- When the connection succeeds and the insert or the commit raises, the
transaction ends in the compensated failure state. -/
theorem runTransaction_fail (env : Reg.Env) (orc : Reg.Oracle) (body userData : Jdict)
    (folder : String) (hconn : orc.connectOk = true)
    (hfail : orc.insertErr.isSome = true ∨ orc.commitErr.isSome = true ∨
      (Reg.sqlParamKeys.filter fun k =>
        (dget (userData ++ (Reg.processFiles env orc body folder).file_paths) k).isNone) ≠ []) :
    Reg.runTransaction env orc body userData folder =
      .regFailed (Reg.failState orc (Reg.processFiles env orc body folder)) := by
  simp only [Reg.runTransaction, hconn, Bool.not_true, Bool.false_eq_true, if_false]
  have hc : (!(Reg.sqlParamKeys.filter fun k =>
      (dget (userData ++ (Reg.processFiles env orc body folder).file_paths) k).isNone).isEmpty ||
      orc.insertErr.isSome || orc.commitErr.isSome) = true := by
    rcases hfail with h | h | h
    · simp [h]
    · simp [h]
    · simp [List.isEmpty_eq_false_iff_exists_mem.mpr (List.exists_mem_of_ne_nil _ h)]
  rw [hc]
  simp

/-- One loop iteration either leaves the accumulator unchanged or extends
all three of its components with the data of one uploaded key. -/
theorem processOne_cases (env : Reg.Env) (orc : Reg.Oracle) (body : Jdict)
    (folder : String) (st : Reg.UpState) (ff ft : String) :
    Reg.processOne env orc body folder st ff ft = st ∨
    ∃ fk, Reg.processOne env orc body folder st ff ft =
      ⟨st.file_paths ++ [(ft ++ "_path", .str ("s3://" ++ env.bucket ++ "/" ++ fk))],
       st.uploaded ++ [fk], st.actions ++ [.upload fk]⟩ := by
  simp only [Reg.processOne]
  repeat' split
  all_goals first
    | exact Or.inl rfl
    | exact Or.inr ⟨_, rfl⟩

/-- Every `upload` action recorded by one loop iteration has its key in the
rollback set. -/
theorem processOne_upload_mem (env : Reg.Env) (orc : Reg.Oracle) (body : Jdict)
    (folder : String) (st : Reg.UpState) (ff ft : String)
    (h : ∀ k, Reg.Action.upload k ∈ st.actions → k ∈ st.uploaded) :
    ∀ k, Reg.Action.upload k ∈ (Reg.processOne env orc body folder st ff ft).actions →
      k ∈ (Reg.processOne env orc body folder st ff ft).uploaded := by
  intro k
  rcases processOne_cases env orc body folder st ff ft with hc | ⟨fk, hc⟩
  · rw [hc]; exact h k
  · rw [hc]
    intro hk
    simp only [List.mem_append, List.mem_singleton] at hk
    rcases hk with hk | hk
    · exact List.mem_append_left _ (h k hk)
    · have hkfk : k = fk := by injection hk
      subst hkfk
      exact List.mem_append_right _ (List.mem_singleton.mpr rfl)

theorem processFold_upload_mem (env : Reg.Env) (orc : Reg.Oracle) (body : Jdict)
    (folder : String) :
    ∀ (l : List (String × String)) (st : Reg.UpState),
      (∀ k, Reg.Action.upload k ∈ st.actions → k ∈ st.uploaded) →
      ∀ k, Reg.Action.upload k ∈
          (l.foldl (fun s p => Reg.processOne env orc body folder s p.1 p.2) st).actions →
        k ∈ (l.foldl (fun s p => Reg.processOne env orc body folder s p.1 p.2) st).uploaded := by
  intro l
  induction l with
  | nil => intro st h; exact h
  | cons p rest ih =>
    intro st h
    exact ih _ (processOne_upload_mem env orc body folder st p.1 p.2 h)

/-- Every `upload` action recorded by the upload phase has its key in the
rollback set. -/
theorem processFiles_upload_mem (env : Reg.Env) (orc : Reg.Oracle) (body : Jdict)
    (folder : String) :
    ∀ k, Reg.Action.upload k ∈ (Reg.processFiles env orc body folder).actions →
      k ∈ (Reg.processFiles env orc body folder).uploaded :=
  processFold_upload_mem env orc body folder Reg.file_mapping ⟨[], [], []⟩
    (fun _ hk => absurd hk (List.not_mem_nil _))

/-- C1: if the insert or the commit raises after documents were uploaded,
the handler rolls back, then attempts one delete per uploaded key (each
attempt independent of the others' outcome), returns the 500
registration-failed response, and no row is committed. -/
theorem c1_insert_failure_rolls_back_and_compensates
    (env : Reg.Env) (orc : Reg.Oracle) (ev : Event) (body userData : Jdict) (fn : String)
    (hopt : ev.httpMethod ≠ some "OPTIONS")
    (hbody : ev.body = .parsed (.dict body))
    (hmiss : Reg.missingRequired body = [])
    (hprep : Reg.prepare_user_data env body env.userId = .ok userData)
    (hfn : pyGet body "full_name" = .str fn)
    (hconn : orc.connectOk = true)
    (_hsome : (Reg.processFiles env orc body
      (Reg.generate_folder_name env.dateStr (pyStr (pyGet body "ci")) fn)).uploaded ≠ [])
    (hfail : orc.insertErr.isSome = true ∨ orc.commitErr.isSome = true ∨
      (Reg.sqlParamKeys.filter fun k =>
        (dget (userData ++ (Reg.processFiles env orc body
          (Reg.generate_folder_name env.dateStr (pyStr (pyGet body "ci")) fn)).file_paths)
          k).isNone) ≠ []) :
    Reg.lambda_handler env orc ev =
      (Reg.regFailedResponse,
       Reg.failState orc (Reg.processFiles env orc body
         (Reg.generate_folder_name env.dateStr (pyStr (pyGet body "ci")) fn))) ∧
    (Reg.lambda_handler env orc ev).1.statusCode = 500 ∧
    (Reg.lambda_handler env orc ev).2.committed = false ∧
    ∀ k, Reg.Action.upload k ∈ (Reg.lambda_handler env orc ev).2.actions →
      Reg.Action.deleteAttempt k ∈ (Reg.lambda_handler env orc ev).2.actions := by
  have hrun := regOutcome_run env orc ev body userData fn hopt hbody hmiss hprep hfn
  have hfl := runTransaction_fail env orc body userData
    (Reg.generate_folder_name env.dateStr (pyStr (pyGet body "ci")) fn) hconn hfail
  have hmain : Reg.lambda_handler env orc ev =
      (Reg.regFailedResponse,
       Reg.failState orc (Reg.processFiles env orc body
         (Reg.generate_folder_name env.dateStr (pyStr (pyGet body "ci")) fn))) := by
    unfold Reg.lambda_handler
    rw [hrun, hfl]
    rfl
  refine ⟨hmain, by rw [hmain]; rfl, by rw [hmain]; rfl, ?_⟩
  rw [hmain]
  intro k hk
  unfold Reg.failState at hk ⊢
  simp only [List.mem_append, List.mem_cons, List.mem_map] at hk ⊢
  rcases hk with hk | hk | hk
  · right; right
    exact ⟨k, processFiles_upload_mem env orc body _ k hk, rfl⟩
  · cases hk
  · rcases hk with ⟨k2, _, he⟩
    cases he

/-- C1 witness: the all-documents payload with a duplicate-key insert
error. -/
theorem c1_witness :
    Reg.lambda_handler regEnv0 dupOracle fullEvent =
      (Reg.regFailedResponse,
       Reg.failState dupOracle (Reg.processFiles regEnv0 dupOracle fullBody
         (Reg.generate_folder_name regEnv0.dateStr (pyStr (pyGet fullBody "ci")) "Ana Perez"))) ∧
    (Reg.lambda_handler regEnv0 dupOracle fullEvent).1.statusCode = 500 ∧
    (Reg.lambda_handler regEnv0 dupOracle fullEvent).2.committed = false ∧
    ∀ k, Reg.Action.upload k ∈ (Reg.lambda_handler regEnv0 dupOracle fullEvent).2.actions →
      Reg.Action.deleteAttempt k ∈ (Reg.lambda_handler regEnv0 dupOracle fullEvent).2.actions :=
  c1_insert_failure_rolls_back_and_compensates regEnv0 dupOracle fullEvent fullBody udFull
    "Ana Perez" (by decide) rfl (by decide) rfl rfl rfl (by decide) (Or.inl rfl)

/-- C2 (amended): a database-level error raised by the insert — such as a
duplicate-key error — is handled by the generic failure path: rollback,
best-effort compensation and a 500 registration-failed response; no
conflict-specific (409) outcome and no uniqueness pre-check exist. -/
theorem c2_amended_duplicate_key_generic_failure
    (env : Reg.Env) (orc : Reg.Oracle) (ev : Event) (body userData : Jdict) (fn : String)
    (hopt : ev.httpMethod ≠ some "OPTIONS")
    (hbody : ev.body = .parsed (.dict body))
    (hmiss : Reg.missingRequired body = [])
    (hprep : Reg.prepare_user_data env body env.userId = .ok userData)
    (hfn : pyGet body "full_name" = .str fn)
    (hconn : orc.connectOk = true)
    (hdup : orc.insertErr.isSome = true) :
    (Reg.lambda_handler env orc ev).1 = Reg.regFailedResponse ∧
    (Reg.lambda_handler env orc ev).1.statusCode = 500 ∧
    (Reg.lambda_handler env orc ev).2.committed = false := by
  have hrun := regOutcome_run env orc ev body userData fn hopt hbody hmiss hprep hfn
  have hfl := runTransaction_fail env orc body userData
    (Reg.generate_folder_name env.dateStr (pyStr (pyGet body "ci")) fn) hconn (Or.inl hdup)
  have hmain : Reg.lambda_handler env orc ev =
      (Reg.regFailedResponse,
       Reg.failState orc (Reg.processFiles env orc body
         (Reg.generate_folder_name env.dateStr (pyStr (pyGet body "ci")) fn))) := by
    unfold Reg.lambda_handler
    rw [hrun, hfl]
    rfl
  exact ⟨by rw [hmain], by rw [hmain]; rfl, by rw [hmain]; rfl⟩

/-- C2 witness: the duplicate-key oracle run on the all-documents
payload. -/
theorem c2_witness :
    (Reg.lambda_handler regEnv0 dupOracle fullEvent).1 = Reg.regFailedResponse ∧
    (Reg.lambda_handler regEnv0 dupOracle fullEvent).1.statusCode = 500 ∧
    (Reg.lambda_handler regEnv0 dupOracle fullEvent).2.committed = false :=
  c2_amended_duplicate_key_generic_failure regEnv0 dupOracle fullEvent fullBody udFull
    "Ana Perez" (by decide) rfl (by decide) rfl rfl rfl rfl

/-- C7 (amended): every exception escaping to either entry point's
top-level catch is converted to a 500 response, but the body carries the
raw exception text — in `message` for the registration handler and in
`details.error` for the issuer. -/
theorem c7_amended_top_level_catch
    (env : Reg.Env) (orc : Reg.Oracle) (ev : Event) (e : Exc)
    (env2 : Issuer.Env) (orc2 : Issuer.Oracle) (ev2 : Event) (e2 : Exc)
    (h1 : Reg.regOutcome env orc ev = .raised e)
    (h2 : Issuer.issuerOutcome env2 orc2 ev2 = .raised e2) :
    (Reg.lambda_handler env orc ev).1.statusCode = 500 ∧
    dget (Reg.lambda_handler env orc ev).1.body "message" = some (.str (excStr e)) ∧
    (Issuer.lambda_handler env2 orc2 ev2).statusCode = 500 ∧
    dget (Issuer.lambda_handler env2 orc2 ev2).body "details" =
      some (.dict [("error", .str (excStr e2))]) := by
  unfold Reg.lambda_handler Issuer.lambda_handler
  rw [h1, h2]
  exact ⟨rfl, rfl, rfl, rfl⟩

/-- C7 witness: a JSON-array registration body (AttributeError) and an
issuer files entry holding the number 5 (TypeError). -/
theorem c7_witness :
    Reg.regOutcome regEnv0 allOkOracle listBodyEvent = .raised c7RegExc ∧
    Issuer.issuerOutcome issEnv0 issOkOracle intFileEvent = .raised c7Exc ∧
    (Reg.lambda_handler regEnv0 allOkOracle listBodyEvent).1.statusCode = 500 ∧
    dget (Reg.lambda_handler regEnv0 allOkOracle listBodyEvent).1.body "message" =
      some (.str (excStr c7RegExc)) ∧
    (Issuer.lambda_handler issEnv0 issOkOracle intFileEvent).statusCode = 500 ∧
    dget (Issuer.lambda_handler issEnv0 issOkOracle intFileEvent).body "details" =
      some (.dict [("error", .str (excStr c7Exc))]) :=
  have h := c7_amended_top_level_catch regEnv0 allOkOracle listBodyEvent c7RegExc
    issEnv0 issOkOracle intFileEvent c7Exc rfl rfl
  ⟨rfl, rfl, h.1, h.2.1, h.2.2.1, h.2.2.2⟩

/-- C8 (amended): the required fields are exactly email, full_name, ci
(the national id) and phone1; a payload missing several of them is rejected
with a single 400 error listing all the missing names jointly; no
email-format check exists — an email without an `@` passes validation and
the registration succeeds. -/
theorem c8_amended_required_fields
    (env : Reg.Env) (orc : Reg.Oracle) (ev : Event) (body : Jdict)
    (hopt : ev.httpMethod ≠ some "OPTIONS")
    (hbody : ev.body = .parsed (.dict body))
    (hmiss : Reg.missingRequired body ≠ []) :
    Reg.lambda_handler env orc ev =
      (Reg.missingFieldsResponse (Reg.missingRequired body), Reg.emptyState) ∧
    Reg.required_fields = ["email", "full_name", "ci", "phone1"] ∧
    (Reg.lambda_handler regEnv0 allOkOracle noAtEvent).1.statusCode = 201 := by
  refine ⟨?_, rfl, rfl⟩
  have h1 : (ev.httpMethod == some "OPTIONS") = false := beq_eq_false_iff_ne.mpr hopt
  have h2 : (Reg.missingRequired body).isEmpty = false :=
    List.isEmpty_eq_false_iff_exists_mem.mpr (List.exists_mem_of_ne_nil _ hmiss)
  unfold Reg.lambda_handler Reg.regOutcome
  rw [hbody]
  simp only [h1, Bool.false_eq_true, if_false, h2, Bool.not_false, if_true]
  rfl

/-- C8 witness: a payload carrying only an email is rejected listing the
other three required names. -/
theorem c8_witness :
    Reg.lambda_handler regEnv0 allOkOracle (mkPostEvent [("email", .str "a@b.com")]) =
      (Reg.missingFieldsResponse (Reg.missingRequired [("email", .str "a@b.com")]),
       Reg.emptyState) ∧
    Reg.required_fields = ["email", "full_name", "ci", "phone1"] ∧
    (Reg.lambda_handler regEnv0 allOkOracle noAtEvent).1.statusCode = 201 :=
  c8_amended_required_fields regEnv0 allOkOracle (mkPostEvent [("email", .str "a@b.com")])
    [("email", .str "a@b.com")] (by decide) rfl (by decide)

/-- C9 (amended): every issuer response carries the same fixed header set
and an ISO-8601 timestamp in its body.  The registration handler is not
uniform: every one of its paths returns the full `cors_headers` set except
the top-level catch-all, which alone returns the reduced `catch_headers`
set; and its body carries a timestamp exactly when the outcome is the 201
success — no error body (nor the OPTIONS body) carries one. -/
theorem c9_amended_headers_timestamp
    (env2 : Issuer.Env) (orc2 : Issuer.Oracle) (ev2 : Event)
    (env : Reg.Env) (orc : Reg.Oracle) (ev : Event) :
    (Issuer.lambda_handler env2 orc2 ev2).headers = Issuer.response_headers ∧
    dget (Issuer.lambda_handler env2 orc2 ev2).body "timestamp" = some (.str env2.nowIso) ∧
    ((Reg.lambda_handler env orc ev).1.headers =
      match Reg.regOutcome env orc ev with
      | .raised _ => Reg.catch_headers
      | _ => Reg.cors_headers) ∧
    (dget (Reg.lambda_handler env orc ev).1.body "timestamp" =
      match Reg.regOutcome env orc ev with
      | .success _ _ _ _ => some (PyVal.str env.nowIso)
      | _ => none) := by
  refine ⟨?_, ?_, ?_, ?_⟩
  · show (Issuer.renderIssuer env2 (Issuer.issuerOutcome env2 orc2 ev2)).headers = _
    cases Issuer.issuerOutcome env2 orc2 ev2 <;> rfl
  · show dget (Issuer.renderIssuer env2 (Issuer.issuerOutcome env2 orc2 ev2)).body
      "timestamp" = _
    cases Issuer.issuerOutcome env2 orc2 ev2 <;> rfl
  · show (Reg.renderReg env (Reg.regOutcome env orc ev)).1.headers = _
    cases Reg.regOutcome env orc ev <;> rfl
  · show dget (Reg.renderReg env (Reg.regOutcome env orc ev)).1.body "timestamp" = _
    cases Reg.regOutcome env orc ev <;> rfl

/-- C9 witness: the amended statement at concrete inputs, one registration
error path (missing body: full CORS set, no timestamp) and one success
path (timestamp present). -/
theorem c9_witness :
    (Issuer.lambda_handler issEnv0 issOkOracle c6Event).headers = Issuer.response_headers ∧
    dget (Issuer.lambda_handler issEnv0 issOkOracle c6Event).body "timestamp" =
      some (.str issEnv0.nowIso) ∧
    ((Reg.lambda_handler regEnv0 allOkOracle noBodyEvent).1.headers =
      match Reg.regOutcome regEnv0 allOkOracle noBodyEvent with
      | .raised _ => Reg.catch_headers
      | _ => Reg.cors_headers) ∧
    (dget (Reg.lambda_handler regEnv0 allOkOracle noBodyEvent).1.body "timestamp" =
      match Reg.regOutcome regEnv0 allOkOracle noBodyEvent with
      | .success _ _ _ _ => some (PyVal.str regEnv0.nowIso)
      | _ => none) ∧
    (dget (Reg.lambda_handler regEnv0 allOkOracle fullEvent).1.body "timestamp" =
      match Reg.regOutcome regEnv0 allOkOracle fullEvent with
      | .success _ _ _ _ => some (PyVal.str regEnv0.nowIso)
      | _ => none) :=
  have h := c9_amended_headers_timestamp issEnv0 issOkOracle c6Event
    regEnv0 allOkOracle noBodyEvent
  have h2 := c9_amended_headers_timestamp issEnv0 issOkOracle c6Event
    regEnv0 allOkOracle fullEvent
  ⟨h.1, h.2.1, h.2.2.1, h.2.2.2, h2.2.2.2⟩

/-- C4 (amended): the sanitization strips every character outside the basic
Latin letter ranges (keeping spaces), title-cases each remaining word and
joins with underscores; accented letters are removed entirely rather than
transliterated, so for `full_name="José Martínez!"` the cleaned name is
`Jos_Martnez` and the folder is `{ddmmyyyy}-{national_id}-Jos_Martnez`. -/
theorem c4_amended_folder_name (d ci : String) :
    Reg.clean_name "José Martínez!" = "Jos_Martnez" ∧
    Reg.generate_folder_name d ci "José Martínez!" = d ++ "-" ++ ci ++ "-Jos_Martnez" := by
  refine ⟨rfl, ?_⟩
  unfold Reg.generate_folder_name
  rw [show Reg.clean_name "José Martínez!" = "Jos_Martnez" from rfl,
    String.append_assoc (d ++ "-" ++ ci) "-" "Jos_Martnez"]
  exact congrArg (fun x => d ++ "-" ++ ci ++ x) (by decide)

/-- C4 witness: the folder name at a concrete date. -/
theorem c4_witness :
    Reg.clean_name "José Martínez!" = "Jos_Martnez" ∧
    Reg.generate_folder_name "12102026" "V-12345678" "José Martínez!" =
      "12102026" ++ "-" ++ "V-12345678" ++ "-Jos_Martnez" :=
  c4_amended_folder_name "12102026" "V-12345678"

/-- Entries of the enumerated view project back into the list. -/
theorem withIdx_mem_snd : ∀ (fs : List PyVal) (i : Nat) (p : Nat × PyVal),
    p ∈ Issuer.withIdx i fs → p.2 ∈ fs := by
  intro fs
  induction fs with
  | nil => intro i p hp; cases hp
  | cons f rest ih =>
    intro i p hp
    simp only [Issuer.withIdx] at hp
    rcases List.mem_cons.mp hp with h | h
    · subst h; exact List.mem_cons_self _ _
    · exact List.mem_cons_of_mem _ (ih (i + 1) p h)

/-- A dictionary file entry whose `file_name`, when present, is a string
never makes `checkFile` raise. -/
theorem checkFile_no_raise (fd : Jdict) (i : Nat)
    (hfn : ∀ v, dget fd "file_name" = some v → ∃ s, v = PyVal.str s) :
    ∀ e, Issuer.checkFile (PyVal.dict fd) i ≠ .error e := by
  intro e
  unfold Issuer.checkFile
  cases hreq : Issuer.requiredFileFields.find? (fun fl => (dget fd fl).isNone) with
  | some fl => simp [hreq]
  | none =>
    have hall := List.find?_eq_none.mp hreq
    have hfnp := hall "file_name" (by simp [Issuer.requiredFileFields])
    obtain ⟨v, hv⟩ : ∃ v, dget fd "file_name" = some v := by
      cases hd : dget fd "file_name" with
      | none => rw [hd] at hfnp; simp at hfnp
      | some v => exact ⟨v, rfl⟩
    obtain ⟨s, rfl⟩ := hfn v hv
    have hpg : pyGet fd "file_name" = PyVal.str s := by
      unfold pyGet; rw [hv]; rfl
    simp only [hreq, hpg]
    repeat' split
    all_goals simp

/-- The accumulated violations are exactly one per invalid file, tagged
with its input position. -/
theorem viosFrom_filterMap : ∀ (fs : List PyVal) (i : Nat),
    Issuer.viosFrom fs i = (Issuer.withIdx i fs).filterMap
      (fun p => match Issuer.checkFile p.2 p.1 with
        | .ok (.inl v) => some v
        | _ => Option.none) := by
  intro fs
  induction fs with
  | nil => intro i; rfl
  | cons f rest ih =>
    intro i
    simp only [Issuer.viosFrom, Issuer.withIdx, List.filterMap_cons]
    cases hc : Issuer.checkFile f i with
    | error e => simp [ih]
    | ok s =>
      cases s with
      | inl v => simp [ih]
      | inr vf => simp [ih]

/-- A batch with at least one invalid file accumulates at least one
violation. -/
theorem viosFrom_ne_nil : ∀ (fs : List PyVal) (i : Nat),
    (∃ p ∈ Issuer.withIdx i fs, ∃ v, Issuer.checkFile p.2 p.1 = .ok (.inl v)) →
    Issuer.viosFrom fs i ≠ [] := by
  intro fs
  induction fs with
  | nil =>
    intro i h
    rcases h with ⟨p, hp, _⟩
    cases hp
  | cons f rest ih =>
    intro i h
    rcases h with ⟨p, hp, v, hv⟩
    simp only [Issuer.withIdx] at hp
    rcases List.mem_cons.mp hp with heq | hmem
    · subst heq
      simp only [Issuer.viosFrom, hv]
      exact List.cons_ne_nil _ _
    · simp only [Issuer.viosFrom]
      cases hc : Issuer.checkFile f i with
      | error e => exact ih (i + 1) ⟨p, hmem, v, hv⟩
      | ok s =>
        cases s with
        | inl v2 => exact List.cons_ne_nil _ _
        | inr vf => exact ih (i + 1) ⟨p, hmem, v, hv⟩

/-- Closed form of the per-file loop when no entry raises and presigning
always succeeds. -/
theorem issuerLoop_eq (env : Issuer.Env) (orc : Issuer.Oracle) :
    ∀ (fs : List PyVal) (i : Nat) (gs : List Issuer.Grant) (vs : List Issuer.Violation),
      (∀ p ∈ Issuer.withIdx i fs, ∀ e, Issuer.checkFile p.2 p.1 ≠ .error e) →
      (∀ k, ∃ u, orc.presign k = .ok u) →
      Issuer.issuerLoop env orc fs i gs vs =
        (if (vs ++ Issuer.viosFrom fs i).isEmpty
         then .success (gs ++ Issuer.grantsFrom env orc fs i)
         else .validationErr (vs ++ Issuer.viosFrom fs i)) := by
  intro fs
  induction fs with
  | nil =>
    intro i gs vs _ _
    simp [Issuer.issuerLoop, Issuer.viosFrom, Issuer.grantsFrom]
  | cons f rest ih =>
    intro i gs vs hnr hp
    have hhd : ∀ e, Issuer.checkFile f i ≠ .error e := fun e =>
      hnr (i, f) (by simp [Issuer.withIdx]) e
    have htl : ∀ p ∈ Issuer.withIdx (i + 1) rest, ∀ e, Issuer.checkFile p.2 p.1 ≠ .error e := by
      intro p hp2 e
      exact hnr p (by simp [Issuer.withIdx]; exact Or.inr hp2) e
    cases hc : Issuer.checkFile f i with
    | error e => exact absurd hc (hhd e)
    | ok s =>
      cases s with
      | inl v =>
        rw [show Issuer.issuerLoop env orc (f :: rest) i gs vs =
            Issuer.issuerLoop env orc rest (i + 1) gs (vs ++ [v]) from by
          simp only [Issuer.issuerLoop, hc]]
        rw [ih (i + 1) gs (vs ++ [v]) htl hp]
        have hv : Issuer.viosFrom (f :: rest) i = v :: Issuer.viosFrom rest (i + 1) := by
          simp only [Issuer.viosFrom, hc]
        have hg : Issuer.grantsFrom env orc (f :: rest) i =
            Issuer.grantsFrom env orc rest (i + 1) := by
          simp only [Issuer.grantsFrom, hc]
        rw [hv, hg]
        simp [List.append_assoc]
      | inr vf =>
        obtain ⟨u, hu⟩ := hp (Issuer.mkKey env vf i)
        rw [show Issuer.issuerLoop env orc (f :: rest) i gs vs =
            Issuer.issuerLoop env orc rest (i + 1)
              (gs ++ [Issuer.mkGrant vf (Issuer.mkKey env vf i) u]) vs from by
          simp only [Issuer.issuerLoop, hc, hu]]
        rw [ih (i + 1) (gs ++ [Issuer.mkGrant vf (Issuer.mkKey env vf i) u]) vs htl hp]
        have hv : Issuer.viosFrom (f :: rest) i = Issuer.viosFrom rest (i + 1) := by
          simp only [Issuer.viosFrom, hc]
        have hg : Issuer.grantsFrom env orc (f :: rest) i =
            Issuer.mkGrant vf (Issuer.mkKey env vf i) u ::
              Issuer.grantsFrom env orc rest (i + 1) := by
          simp only [Issuer.grantsFrom, hc, hu]
        rw [hv, hg]
        simp [List.append_assoc]

/-- Under a configured bucket and a well-formed non-empty files array of at
most five entries, the issuer outcome is the loop's outcome. -/
theorem issuerOutcome_loop (env : Issuer.Env) (orc : Issuer.Oracle) (ev : Event)
    (b : String) (body : Jdict) (fs : List PyVal)
    (hbucket : env.bucket = some b)
    (hbody : ev.body = .parsed (.dict body))
    (hfiles : dget body "files" = some (.list fs))
    (hne : fs ≠ [])
    (hlen : fs.length ≤ 5) :
    Issuer.issuerOutcome env orc ev = Issuer.issuerLoop env orc fs 0 [] [] := by
  have htr : truthy (PyVal.list fs) = true := by
    cases fs with
    | nil => exact absurd rfl hne
    | cons a l => rfl
  unfold Issuer.issuerOutcome
  rw [hbucket, hbody]
  simp only [hfiles, Option.getD_some, htr, isList, Bool.not_true, Bool.or_self,
    Bool.false_eq_true, if_false]
  rw [if_neg (by omega)]

/-- C5: a well-formed issuer batch of 1–5 files containing at least one
invalid file yields a 400 validation-error response with no grants, and the
violation list holds exactly one entry per invalid file, tagged with its
input position (assuming the storage backend itself does not fail). -/
theorem c5_invalid_batch_zero_grants
    (env : Issuer.Env) (orc : Issuer.Oracle) (ev : Event) (b : String)
    (body : Jdict) (fs : List PyVal)
    (hbucket : env.bucket = some b)
    (hbody : ev.body = .parsed (.dict body))
    (hfiles : dget body "files" = some (.list fs))
    (hne : fs ≠ []) (hlen : fs.length ≤ 5)
    (hshape : ∀ f ∈ fs, ∃ fd, f = PyVal.dict fd ∧
      ∀ v, dget fd "file_name" = some v → ∃ s, v = PyVal.str s)
    (hpresign : ∀ k, ∃ u, orc.presign k = .ok u)
    (hinv : ∃ p ∈ Issuer.withIdx 0 fs, ∃ v, Issuer.checkFile p.2 p.1 = .ok (.inl v)) :
    Issuer.lambda_handler env orc ev =
      Issuer.create_error_response env "Validation errors found" "VALIDATION_ERROR" 400
        env.environment
        (some (.dict [("validation_errors",
          .list ((Issuer.batchViolations fs).map Issuer.violationPy))])) ∧
    Issuer.batchViolations fs = (Issuer.withIdx 0 fs).filterMap
      (fun p => match Issuer.checkFile p.2 p.1 with
        | .ok (.inl v) => some v
        | _ => Option.none) ∧
    (Issuer.lambda_handler env orc ev).statusCode = 400 ∧
    dget (Issuer.lambda_handler env orc ev).body "upload_urls" = none := by
  have hnr : ∀ p ∈ Issuer.withIdx 0 fs, ∀ e, Issuer.checkFile p.2 p.1 ≠ .error e := by
    intro p hp e
    obtain ⟨fd, hfd, hfdn⟩ := hshape p.2 (withIdx_mem_snd fs 0 p hp)
    rw [hfd]
    exact checkFile_no_raise fd p.1 hfdn e
  have hvios : Issuer.viosFrom fs 0 ≠ [] := viosFrom_ne_nil fs 0 hinv
  have hout : Issuer.issuerOutcome env orc ev = .validationErr (Issuer.viosFrom fs 0) := by
    rw [issuerOutcome_loop env orc ev b body fs hbucket hbody hfiles hne hlen,
      issuerLoop_eq env orc fs 0 [] [] hnr hpresign]
    rw [List.nil_append]
    rw [if_neg (by simp [List.isEmpty_eq_false_iff_exists_mem.mpr
      (List.exists_mem_of_ne_nil _ hvios)])]
  have hmain : Issuer.lambda_handler env orc ev =
      Issuer.create_error_response env "Validation errors found" "VALIDATION_ERROR" 400
        env.environment
        (some (.dict [("validation_errors",
          .list ((Issuer.batchViolations fs).map Issuer.violationPy))])) := by
    unfold Issuer.lambda_handler
    rw [hout]
    rfl
  exact ⟨hmain, viosFrom_filterMap fs 0, by rw [hmain]; rfl, by rw [hmain]; rfl⟩

/-- C5 witness: a two-file batch whose second file has a disallowed `.txt`
extension. -/
theorem c5_witness :
    Issuer.lambda_handler issEnv0 issOkOracle c5Event =
      Issuer.create_error_response issEnv0 "Validation errors found" "VALIDATION_ERROR" 400
        issEnv0.environment
        (some (.dict [("validation_errors",
          .list ((Issuer.batchViolations c5Files).map Issuer.violationPy))])) ∧
    Issuer.batchViolations c5Files = (Issuer.withIdx 0 c5Files).filterMap
      (fun p => match Issuer.checkFile p.2 p.1 with
        | .ok (.inl v) => some v
        | _ => Option.none) ∧
    (Issuer.lambda_handler issEnv0 issOkOracle c5Event).statusCode = 400 ∧
    dget (Issuer.lambda_handler issEnv0 issOkOracle c5Event).body "upload_urls" = none :=
  c5_invalid_batch_zero_grants issEnv0 issOkOracle c5Event "upload-bucket"
    [("files", .list c5Files)] c5Files rfl rfl rfl (List.cons_ne_nil _ _) (by decide)
    (by
      intro f hf
      rcases List.mem_cons.mp hf with rfl | hf2
      · refine ⟨_, rfl, ?_⟩
        intro v hv
        have hv2 : some (PyVal.str "b.pdf") = some v := hv
        exact ⟨"b.pdf", (Option.some.inj hv2).symm⟩
      · rcases List.mem_cons.mp hf2 with rfl | hf3
        · refine ⟨_, rfl, ?_⟩
          intro v hv
          have hv2 : some (PyVal.str "a.txt") = some v := hv
          exact ⟨"a.txt", (Option.some.inj hv2).symm⟩
        · cases hf3)
    (fun k => ⟨"https://s3/" ++ k, rfl⟩)
    ⟨(1, invalidTxtFile),
      List.mem_cons_of_mem _ (List.mem_cons_self _ _),
      ⟨1, "file_name", Issuer.extNotAllowedMsg "txt"⟩, rfl⟩

/-- C6: when presigning fails for some file of a well-formed batch, the
handler returns the distinct 500 `S3_PRESIGN_ERROR` response — not the
validation error — with no grants for any file. -/
theorem c6_presign_failure_distinct_error
    (env : Issuer.Env) (orc : Issuer.Oracle) (ev : Event) (b : String)
    (body : Jdict) (fs : List PyVal) (e : String)
    (hbucket : env.bucket = some b)
    (hbody : ev.body = .parsed (.dict body))
    (hfiles : dget body "files" = some (.list fs))
    (hne : fs ≠ []) (hlen : fs.length ≤ 5)
    (hfail : Issuer.issuerLoop env orc fs 0 [] [] = .presignFail e) :
    Issuer.lambda_handler env orc ev =
      Issuer.create_error_response env "Failed to generate presigned URL" "S3_PRESIGN_ERROR"
        500 env.environment (some (.dict [("aws_error", .str e)])) ∧
    (Issuer.lambda_handler env orc ev).statusCode = 500 ∧
    dget (Issuer.lambda_handler env orc ev).body "error_code" =
      some (.str "S3_PRESIGN_ERROR") ∧
    dget (Issuer.lambda_handler env orc ev).body "upload_urls" = none := by
  have hout : Issuer.issuerOutcome env orc ev = .presignFail e := by
    rw [issuerOutcome_loop env orc ev b body fs hbucket hbody hfiles hne hlen, hfail]
  have hmain : Issuer.lambda_handler env orc ev =
      Issuer.create_error_response env "Failed to generate presigned URL" "S3_PRESIGN_ERROR"
        500 env.environment (some (.dict [("aws_error", .str e)])) := by
    unfold Issuer.lambda_handler
    rw [hout]
    rfl
  exact ⟨hmain, by rw [hmain]; rfl, by rw [hmain]; rfl, by rw [hmain]; rfl⟩

/-- C6 witness: a single valid file whose presign raises. -/
theorem c6_witness :
    Issuer.lambda_handler issEnv0 issFailOracle c6Event =
      Issuer.create_error_response issEnv0 "Failed to generate presigned URL"
        "S3_PRESIGN_ERROR" 500 issEnv0.environment
        (some (.dict [("aws_error", .str "boom")])) ∧
    (Issuer.lambda_handler issEnv0 issFailOracle c6Event).statusCode = 500 ∧
    dget (Issuer.lambda_handler issEnv0 issFailOracle c6Event).body "error_code" =
      some (.str "S3_PRESIGN_ERROR") ∧
    dget (Issuer.lambda_handler issEnv0 issFailOracle c6Event).body "upload_urls" = none :=
  c6_presign_failure_distinct_error issEnv0 issFailOracle c6Event "upload-bucket"
    [("files", .list [validPdfFile])] [validPdfFile] "boom" rfl rfl rfl
    (List.cons_ne_nil _ _) (by decide) rfl
